import Mathlib

/-!
Verification development for the Bell-Schedule-Generator repository.

The definitions below are a shallow embedding of `calendar_generator.py`
(and, where a claim refers to it, `calendar.py`).  Python lists become Lean
lists, Python ints become `Int`, Python slicing with step `-1` is embedded
faithfully (including CPython's index adjustment and clamping rules), and
fallible operations (list indexing that can raise `IndexError`, `int()`
conversion that can raise `ValueError`) return `Option` / `Except`.
-/

/-- The fixed academic block list `BLOCKS` from `calendar_generator.py`
(lines 14-15), in the exact source order. -/
def BLOCKS : List String :=
  ["A Block", "G Block", "F Block", "E Block", "D Block", "C Block", "B Block"]

/-- Weekly MS common-time activities (`MS_ACTIVITIES`, lines 46-47):
one entry per weekday Monday..Friday. -/
def MS_ACTIVITIES : List String :=
  ["Advisory", "Tutorial", "MFW", "Tutorial", "Committees"]

/-- Weekly US common-time activities (`US_ACTIVITIES`, lines 49-50). -/
def US_ACTIVITIES : List String :=
  ["Advisory", "MFW", "Academic Help", "Activity Period", "MFW"]

/-- Block times (start, end) for Wednesday (`WED_TIMES`, lines 18-29),
as (hour, minute) pairs. -/
def WED_TIMES : List ((Nat × Nat) × (Nat × Nat)) :=
  [((7, 55), (8, 10)), ((8, 10), (8, 55)), ((9, 0), (10, 10)),
   ((10, 10), (10, 25)), ((10, 25), (11, 10)), ((11, 15), (11, 55)),
   ((12, 0), (12, 30)), ((12, 30), (13, 0)), ((13, 5), (13, 50)),
   ((13, 55), (14, 40))]

/-- Block times (start, end) for non-Wednesdays (`REG_TIMES`, lines 31-43). -/
def REG_TIMES : List ((Nat × Nat) × (Nat × Nat)) :=
  [((7, 55), (8, 10)), ((8, 10), (9, 0)), ((9, 5), (10, 15)),
   ((10, 15), (10, 30)), ((10, 30), (11, 20)), ((11, 25), (12, 5)),
   ((12, 10), (12, 50)), ((12, 50), (13, 25)), ((13, 25), (14, 15)),
   ((14, 20), (15, 10)), ((15, 10), (15, 40))]

/-- CPython's adjustment of a slice start index for a step of `-1`
(PySlice_AdjustIndices): a negative index is shifted by the length and, if
still negative, becomes the empty-slice sentinel `-1`; an index at or past
the end is clamped to `length - 1`. -/
def pyAdjStart (n : Nat) (s : Int) : Int :=
  if s < 0 then (if s + n < 0 then -1 else s + n)
  else if (n : Int) ≤ s then (n : Int) - 1 else s

/-- CPython's adjustment of a slice stop index for a step of `-1`.  An
omitted stop (`Option.none`) behaves as the sentinel `-1`, meaning the slice
runs down to index 0 inclusive. -/
def pyAdjStopRev (n : Nat) : Option Int → Int
  | Option.none => -1
  | Option.some v =>
      if v < 0 then (if v + n < 0 then -1 else v + n)
      else if (n : Int) ≤ v then (n : Int) - 1 else v

/-- Python slicing `l[s:t:-1]` on a list of strings: the elements at indices
`adjStart, adjStart - 1, ..., adjStop + 1` (stop exclusive), after CPython's
index adjustment.  This is the exact semantics of the two slices used by
`RotationDay._get_block_rotation`. -/
def pySliceRev (l : List String) (s : Int) (t : Option Int) : List String :=
  (((List.range l.length).filter
      (fun (i : Nat) => decide (pyAdjStopRev l.length t < (i : Int)) &&
                decide ((i : Int) ≤ pyAdjStart l.length s))).reverse).map
    (fun (i : Nat) => l.getD i "")

/-- Embedding of `RotationDay._get_block_rotation` (calendar_generator.py,
lines 178-203): `day = day_number - 1` and then
`BLOCKS[day::-1] + BLOCKS[-1:day + 1:-1]`. -/
def _get_block_rotation (day_number : Int) : List String :=
  pySliceRev BLOCKS (day_number - 1) Option.none ++
  pySliceRev BLOCKS (-1) (Option.some ((day_number - 1) + 1))

/-- The first historical slicing formulation over a 0-based `day`
(calendar_generator.py, line 203): `blocks[day::-1] + blocks[-1:day+1:-1]`. -/
def rotation_formula_slice (day : Nat) : List String :=
  pySliceRev BLOCKS (day : Int) Option.none ++
  pySliceRev BLOCKS (-1) (Option.some ((day : Int) + 1))

/-- Modelled from the spec: the second historical slicing formulation
`blocks[(N-1-day)%N+1:] + blocks[:(N-1-day)%N]` with `N = 7`, which is not
present under src/ (the spec cites it from the source's history).  For
`day < 7` the index `(N-1-day) % N` is the nonnegative `6 - day`, so the
forward slices are `List.drop` and `List.take`. -/
def rotation_formula_alt (day : Nat) : List String :=
  BLOCKS.drop ((6 - day) % 7 + 1) ++ BLOCKS.take ((6 - day) % 7)

/-- A calendar date, represented by its proleptic Gregorian ordinal exactly
as Python's `datetime.date.toordinal` does (0001-01-01 has ordinal 1 and is
a Monday). -/
structure PyDate where
  ordinal : Nat
deriving DecidableEq

/-- Python's `date.weekday()`: Monday is 0, Sunday is 6. -/
def PyDate.weekday (d : PyDate) : Nat := (d.ordinal + 6) % 7

/-- A `datetime.datetime` as used by the program: a date together with a
time of day (hour, minute).  A bare `datetime.date` (used for all-day
events) carries no time, hence the `Option`. -/
structure PyDateTime where
  date : PyDate
  time : Option (Nat × Nat)
deriving DecidableEq

/-- Embedding of the `Event` helper class (calendar_generator.py,
lines 52-113): name, start, end, all-day flag. -/
structure Event where
  name : String
  start : PyDateTime
  stop : PyDateTime
  all_day : Bool
deriving DecidableEq

/-- Python `list.insert(i, x)` for a non-negative index: inserts before
position `i`, appending when `i` is at or past the end (`take`/`drop` clamp
exactly as Python does). -/
def pyInsert (l : List String) (i : Nat) (x : String) : List String :=
  l.take i ++ [x] ++ l.drop i

/-- The period-sequence assembly done by `RotationDay.__init__`
(calendar_generator.py, lines 152-166): take the block rotation, insert the
morning-help period at 0, append the electives period when the weekday is
not Wednesday (weekday index 2), then insert the two lunch periods at index
5 (US first, so that MS ends up in front of it) and the break at index 3.
Indexing `MS_ACTIVITIES[weekday]` / `US_ACTIVITIES[weekday]` raises
`IndexError` when the weekday is past the 5-entry tables, hence the
`Option`. -/
def assemble_blocks (weekday : Nat) (day_number : Int) : Option (List String) :=
  (MS_ACTIVITIES.get? weekday).bind fun msAct =>
  (US_ACTIVITIES.get? weekday).bind fun usAct =>
  Option.some
    (pyInsert
      (pyInsert
        (pyInsert
          (if weekday == 2 then
            "MS Advisory | US Morning Help" :: _get_block_rotation day_number
          else
            ("MS Advisory | US Morning Help" :: _get_block_rotation day_number)
              ++ ["MS Electives | US Academic Help"])
          5 ("US Lunch | MS " ++ msAct))
        5 ("MS Lunch | US " ++ usAct))
      3 "Break")

/-- Embedding of the `RotationDay` instance state (its `__slots__`). -/
structure RotationDay where
  date : PyDate
  day_number : Int
  is_wednesday : Bool
  is_open : Bool
  all_day_events : List String
  blocks : List String
deriving DecidableEq

/-- Embedding of `RotationDay.__init__` (calendar_generator.py,
lines 127-166).  The constructor stores the date, rotation number and open
flag, appends the synthesized "Day N" title when the day is open, and builds
the period sequence; it fails (Python: `IndexError`) exactly when
`assemble_blocks` does, i.e. on weekends. -/
def RotationDay.init (date : PyDate) (day_number : Int) (is_open : Bool)
    (all_day_events : List String) : Option RotationDay :=
  (assemble_blocks date.weekday day_number).map fun bs =>
    { date := date
      day_number := day_number
      is_wednesday := date.weekday == 2
      is_open := is_open
      all_day_events :=
        if is_open then all_day_events ++ ["Day " ++ toString day_number]
        else all_day_events
      blocks := bs }

/-- Embedding of `RotationDay.get_event_times` (lines 205-214): pick the
Wednesday or the regular time table, index it (raising `IndexError` when the
index is out of range), and combine date and times into datetimes. -/
def RotationDay.get_event_times (self : RotationDay) (block_num : Nat) :
    Option (PyDateTime × PyDateTime) :=
  ((if self.is_wednesday then WED_TIMES else REG_TIMES).get? block_num).map
    fun se => (⟨self.date, Option.some se.1⟩, ⟨self.date, Option.some se.2⟩)

/-- Embedding of `RotationDay.create_blocks` (lines 216-241): one all-day
event per non-empty title; when the school is open, additionally one timed
event per entry of the period sequence, in order.  (The loop's
`num == len(self.blocks)` break condition is dead code since `num` ranges
over `range(len(self.blocks))`.)  The whole call fails (Python: uncaught
`IndexError`) when some period index is past the selected time table. -/
def RotationDay.create_blocks (self : RotationDay) : Option (List Event) :=
  if self.is_open then
    ((List.range self.blocks.length).mapM fun num =>
      (self.get_event_times num).map fun se =>
        ({ name := self.blocks.getD num "", start := se.1, stop := se.2,
           all_day := false } : Event)).map
      fun timed =>
        ((self.all_day_events.filter fun e => !(e == "")).map fun e =>
          ({ name := e, start := ⟨self.date, Option.none⟩,
             stop := ⟨self.date, Option.none⟩, all_day := true } : Event))
          ++ timed
  else
    Option.some
      ((self.all_day_events.filter fun e => !(e == "")).map fun e =>
        { name := e, start := ⟨self.date, Option.none⟩,
          stop := ⟨self.date, Option.none⟩, all_day := true })

/-- Occurrence of `pat` as a contiguous substring of `s`. -/
def substring_occurs (pat s : String) : Bool :=
  s.toList.tails.any fun t => pat.toList.isPrefixOf t

/-- Decimal value of a digit string, as accumulated by `int()`. -/
def decimal_digits_value (l : List Char) : Nat :=
  l.foldl (fun a c => a * 10 + (c.toNat - 48)) 0

/-- Modelled from Python's built-in `int(str)` conversion as applied to a
CSV field (`int(row[3])` in `main`): surrounding whitespace is stripped, an
optional single sign is allowed, and at least one decimal digit must
follow; on anything else `int()` raises `ValueError`, modelled as
`Option.none`. -/
def pyParseInt (s : String) : Option Int :=
  match ((s.toList.dropWhile Char.isWhitespace).reverse.dropWhile
      Char.isWhitespace).reverse with
  | [] => Option.none
  | c :: rest =>
      if c = '-' then
        if rest ≠ [] ∧ rest.all Char.isDigit then
          Option.some (-(decimal_digits_value rest : Int))
        else Option.none
      else if c = '+' then
        if rest ≠ [] ∧ rest.all Char.isDigit then
          Option.some ((decimal_digits_value rest : Int))
        else Option.none
      else
        if (c :: rest).all Char.isDigit then
          Option.some ((decimal_digits_value (c :: rest) : Int))
        else Option.none

/-- Embedding of the rotation-number handling of one input row in `main`
(calendar_generator.py, lines 273-276):

    try: number = int(row[3])
    except IndexError: continue

A missing column 3 raises `IndexError`, which is caught and skips the row
(`Except.ok Option.none`); a present but unparseable value raises
`ValueError`, which is NOT in the except clause and therefore propagates
uncaught (`Except.error`). -/
def parse_rotation_number (row : List String) : Except String (Option Int) :=
  match row.get? 3 with
  | Option.none => Except.ok Option.none
  | Option.some s =>
      match pyParseInt s with
      | Option.some n => Except.ok (Option.some n)
      | Option.none => Except.error "ValueError: invalid literal for int()"

/-- The row loop of `main` restricted to the rotation-number column: rows
are processed in order, a skipped row contributes nothing, and an uncaught
exception aborts the whole run, losing every later row. -/
def collect_rotation_numbers : List (List String) → Except String (List Int)
  | [] => Except.ok []
  | row :: rest =>
      match parse_rotation_number row with
      | Except.error e => Except.error e
      | Except.ok Option.none => collect_rotation_numbers rest
      | Except.ok (Option.some n) =>
          (collect_rotation_numbers rest).map fun l => n :: l

lemma pyAdjStart_ge_six (s : Int) (hs : 6 ≤ s) : pyAdjStart 7 s = 6 := by
  unfold pyAdjStart
  split_ifs <;> omega

lemma pyAdjStopRev_ge_seven (v : Int) (hv : 7 ≤ v) :
    pyAdjStopRev 7 (Option.some v) = 6 := by
  simp only [pyAdjStopRev]
  split_ifs <;> omega

lemma pyAdjStart_le_neg_eight (s : Int) (hs : s ≤ -8) : pyAdjStart 7 s = -1 := by
  unfold pyAdjStart
  split_ifs <;> omega

lemma pyAdjStopRev_le_neg_eight (v : Int) (hv : v ≤ -8) :
    pyAdjStopRev 7 (Option.some v) = -1 := by
  simp only [pyAdjStopRev]
  split_ifs <;> omega

lemma BLOCKS_length_eq : BLOCKS.length = 7 := rfl

/-- For every day number at least 7 the resolver degenerates to the full
reversed block list: the first slice start clamps to the last index and the
second slice is empty. -/
lemma get_block_rotation_of_seven_le (d : Int) (hd : 7 ≤ d) :
    _get_block_rotation d =
      ["B Block", "C Block", "D Block", "E Block", "F Block", "G Block",
       "A Block"] := by
  unfold _get_block_rotation pySliceRev
  simp only [BLOCKS_length_eq, show d - 1 + 1 = d from by omega,
    pyAdjStart_ge_six (d - 1) (by omega), pyAdjStopRev_ge_seven d hd]
  decide

/-- For every day number at most -8 the first slice is empty and the second
slice degenerates to the full reversed block list. -/
lemma get_block_rotation_of_le_neg_eight (d : Int) (hd : d ≤ -8) :
    _get_block_rotation d =
      ["B Block", "C Block", "D Block", "E Block", "F Block", "G Block",
       "A Block"] := by
  unfold _get_block_rotation pySliceRev
  simp only [BLOCKS_length_eq, show d - 1 + 1 = d from by omega,
    pyAdjStart_le_neg_eight (d - 1) (by omega), pyAdjStopRev_le_neg_eight d hd]
  decide

/-- A successful construction determines every field of the resulting
`RotationDay` in terms of the constructor arguments. -/
lemma RotationDay.init_eq_some (date : PyDate) (dn : Int) (o : Bool)
    (evs : List String) (day : RotationDay)
    (h : RotationDay.init date dn o evs = Option.some day) :
    assemble_blocks date.weekday dn = Option.some day.blocks ∧
    day.is_wednesday = (date.weekday == 2) ∧
    day.is_open = o ∧
    day.date = date ∧
    day.all_day_events =
      (if o then evs ++ ["Day " ++ toString dn] else evs) := by
  unfold RotationDay.init at h
  rcases hb : assemble_blocks date.weekday dn with _ | bs
  · rw [hb] at h
    cases h
  · rw [hb, Option.map_some'] at h
    cases h
    exact ⟨rfl, rfl, rfl, rfl, rfl⟩

/-- Construction succeeds exactly on weekdays: `MS_ACTIVITIES` and
`US_ACTIVITIES` have five entries, so the lookup at `weekday` succeeds iff
the weekday index is at most 4. -/
lemma assemble_blocks_isSome (w : Nat) (dn : Int) :
    (assemble_blocks w dn).isSome ↔ w ≤ 4 := by
  constructor
  · intro h
    by_contra hw
    have h5 : MS_ACTIVITIES.get? w = Option.none := by
      apply List.get?_eq_none.mpr
      simp only [MS_ACTIVITIES, List.length_cons, List.length_nil]
      omega
    unfold assemble_blocks at h
    rw [h5] at h
    simp at h
  · intro hw
    interval_cases w <;> rfl

/-- Positional layout of the assembled period sequence, for every weekday
and every day_number in [1, 7], read off the value of `assemble_blocks`. -/
lemma assemble_blocks_layout (w : Nat) (dn : Int) (hw : w ≤ 4) (h1 : 1 ≤ dn)
    (h7 : dn ≤ 7) :
    ((assemble_blocks w dn).getD []).get? 0 =
        Option.some "MS Advisory | US Morning Help" ∧
    ((assemble_blocks w dn).getD []).get? 3 = Option.some "Break" ∧
    ((assemble_blocks w dn).getD []).get? 6 =
        Option.some ("MS Lunch | US " ++ US_ACTIVITIES.getD w "") ∧
    ((assemble_blocks w dn).getD []).get? 7 =
        Option.some ("US Lunch | MS " ++ MS_ACTIVITIES.getD w "") ∧
    (∃ b1, ((assemble_blocks w dn).getD []).get? 1 = Option.some b1 ∧
        b1 ∈ BLOCKS) ∧
    (∃ b2, ((assemble_blocks w dn).getD []).get? 2 = Option.some b2 ∧
        b2 ∈ BLOCKS) ∧
    (w ≠ 2 → ((assemble_blocks w dn).getD []).getLast? =
        Option.some "MS Electives | US Academic Help") := by
  interval_cases w <;> interval_cases dn <;> decide

/-- From a successful construction, recover the weekday bound and express
the stored period sequence as the value of `assemble_blocks`. -/
lemma RotationDay.init_blocks_eq (date : PyDate) (dn : Int) (o : Bool)
    (evs : List String) (day : RotationDay)
    (h : RotationDay.init date dn o evs = Option.some day) :
    date.weekday ≤ 4 ∧
    day.blocks = (assemble_blocks date.weekday dn).getD [] := by
  obtain ⟨hb, -, -, -, -⟩ := RotationDay.init_eq_some date dn o evs day h
  refine ⟨?_, by rw [hb]; rfl⟩
  exact (assemble_blocks_isSome date.weekday dn).mp (by rw [hb]; rfl)

/-- C1 (counterexample): at day_number 1 the claim predicts that the entry at
index 0 of BLOCKS ("A Block") is dropped and that the output is the sequence
starting immediately after index 0, wrapping, in original relative order,
namely `BLOCKS.drop 1 ++ BLOCKS.take 0`.  In fact "A Block" is the first
element of the output and the output differs from the predicted sequence. -/
theorem C1_spec_rotation_refuted_at_day_one :
    "A Block" ∈ _get_block_rotation 1 ∧
    _get_block_rotation 1 ≠ BLOCKS.drop 1 ++ BLOCKS.take 0 ∧
    _get_block_rotation 1 =
      ["A Block", "B Block", "C Block", "D Block", "E Block", "F Block"] := by
  decide

/-- C1 (amended): for 1-based day_number d in [1, 7] the resolver returns the
REVERSE of the sequence that starts immediately after index d, wraps around,
and omits the entry at index d — so for d in [1, 6] the dropped entry sits at
index d mod 7 (not (d-1) mod 7) and the kept entries appear in reversed
relative order; for d = 7 nothing is dropped and all 7 entries appear
reversed. -/
theorem C1_rotation_is_reversed_drop_at_index_d (d : Nat) (h1 : 1 ≤ d)
    (h7 : d ≤ 7) :
    _get_block_rotation (d : Int) =
      (BLOCKS.drop (d + 1) ++ BLOCKS.take d).reverse := by
  interval_cases d <;> decide

theorem C1_rotation_is_reversed_drop_at_index_d_witness :
    _get_block_rotation ((2 : Nat) : Int) =
      (BLOCKS.drop (2 + 1) ++ BLOCKS.take 2).reverse :=
  C1_rotation_is_reversed_drop_at_index_d 2 (by decide) (by decide)

/-- C3 (code bug): at day_number 7 the resolver returns SEVEN block names
(the full reversed block list), not the claimed N-1 = 6: the first slice
`BLOCKS[6::-1]` already contains all seven blocks and the second slice is
empty, so no block is omitted.  (calendar.py guards this very case with
`if len(blocks) == 7: blocks = blocks[:-1]`; calendar_generator.py lost the
guard.)  Downstream, an open day-7 schedule then has 12 periods against the
11-entry regular time table, so create_blocks dies with an uncaught
IndexError. -/
theorem C3_day7_rotation_has_seven_blocks :
    (_get_block_rotation 7).length = 7 ∧
    (∀ b ∈ BLOCKS, b ∈ _get_block_rotation 7) ∧
    _get_block_rotation 7 =
      ["B Block", "C Block", "D Block", "E Block", "F Block", "G Block",
       "A Block"] ∧
    (∃ day, RotationDay.init ⟨1⟩ 7 true [] = Option.some day ∧
      day.blocks.length = 12 ∧ day.create_blocks = Option.none) := by
  refine ⟨by decide, by decide, by decide,
    ⟨⟨⟨1⟩, 7, false, true, ["Day 7"],
      ["MS Advisory | US Morning Help", "B Block", "C Block", "Break",
       "D Block", "E Block", "MS Lunch | US Advisory",
       "US Lunch | MS Advisory", "F Block", "G Block", "A Block",
       "MS Electives | US Academic Help"]⟩,
     by decide, by decide, by decide⟩⟩

/-- C4 (counterexample): the resolver is not periodic with period 7: at
day_number 1 it returns a 6-element rotation, while at day_number 8 the
slice start clamps and it returns the full reversed 7-element list. -/
theorem C4_periodicity_refuted_at_day_one :
    _get_block_rotation 1 ≠ _get_block_rotation (1 + 7) ∧
    _get_block_rotation 1 =
      ["A Block", "B Block", "C Block", "D Block", "E Block", "F Block"] ∧
    _get_block_rotation 8 =
      ["B Block", "C Block", "D Block", "E Block", "F Block", "G Block",
       "A Block"] := by
  decide

/-- C4 (amended): periodicity only holds from day_number 7 on, where the
resolver is constant (both sides are the full reversed block list); for
day_number in [1, 6] the output for d and d + 7 differ. -/
theorem C4_periodic_from_seven_on (d : Int) (hd : 7 ≤ d) :
    _get_block_rotation d = _get_block_rotation (d + 7) := by
  rw [get_block_rotation_of_seven_le d hd,
    get_block_rotation_of_seven_le (d + 7) (by omega)]

theorem C4_periodic_from_seven_on_witness :
    _get_block_rotation 7 = _get_block_rotation (7 + 7) :=
  C4_periodic_from_seven_on 7 (by decide)

/-- C6 (counterexample): the two historical slicing formulations are not
equivalent: at day = 0 the first produces the blocks in increasing
alphabetical order while the second keeps the stored BLOCKS order. -/
theorem C6_formulations_differ_at_day_zero :
    rotation_formula_slice 0 =
      ["A Block", "B Block", "C Block", "D Block", "E Block", "F Block"] ∧
    rotation_formula_alt 0 =
      ["A Block", "G Block", "F Block", "E Block", "D Block", "C Block"] ∧
    rotation_formula_slice 0 ≠ rotation_formula_alt 0 := by
  decide

/-- C6 (amended): the two slicing formulations are NOT equivalent: for every
day with 0 ≤ day < 7 they produce different lists. -/
theorem C6_formulations_never_agree (day : Nat) (h : day < 7) :
    rotation_formula_slice day ≠ rotation_formula_alt day := by
  interval_cases day <;> decide

theorem C6_formulations_never_agree_witness :
    rotation_formula_slice 1 ≠ rotation_formula_alt 1 :=
  C6_formulations_never_agree 1 (by decide)

/-- C7 (counterexample): day_number 0 is not rejected: the resolver silently
returns a 13-element list (the first slice wraps to the full reversed list
and the second contributes six more entries). -/
theorem C7_day_zero_returns_thirteen_blocks :
    _get_block_rotation 0 =
      ["B Block", "C Block", "D Block", "E Block", "F Block", "G Block",
       "A Block", "B Block", "C Block", "D Block", "E Block", "F Block",
       "G Block"] := by
  decide

/-- C7 (amended): non-positive day_number is NOT rejected and no error is
signalled: the resolver silently returns a non-empty list of block names
drawn from BLOCKS (13 entries for day_number 0, 6 entries for day_number in
[-7, -1], 7 entries for day_number at most -8). -/
theorem C7_nonpositive_silently_returns_blocks (d : Int) (hd : d ≤ 0) :
    _get_block_rotation d ≠ [] ∧ ∀ x ∈ _get_block_rotation d, x ∈ BLOCKS := by
  rcases le_or_lt d (-8) with h | h
  · rw [get_block_rotation_of_le_neg_eight d h]
    exact ⟨by decide, by decide⟩
  · have h7 : -7 ≤ d := by omega
    interval_cases d <;> exact ⟨by decide, by decide⟩

theorem C7_nonpositive_silently_returns_blocks_witness :
    _get_block_rotation (-3) ≠ [] ∧
    ∀ x ∈ _get_block_rotation (-3), x ∈ BLOCKS :=
  C7_nonpositive_silently_returns_blocks (-3) (by decide)

/-- C2 (counterexample): for the open Monday with ordinal 1 and day_number
1, position 5 of the assembled sequence is the academic block "D Block",
not a lunch period: the two lunch periods sit at positions 6 and 7, and the
break at position 3 is preceded by TWO academic blocks, so the claimed
layout "positions 5-6 = lunch periods" is wrong. -/
theorem C2_lunch_positions_refuted :
    ∃ day, RotationDay.init ⟨1⟩ 1 true [] = Option.some day ∧
      day.blocks =
        ["MS Advisory | US Morning Help", "A Block", "B Block", "Break",
         "C Block", "D Block", "MS Lunch | US Advisory",
         "US Lunch | MS Advisory", "E Block", "F Block",
         "MS Electives | US Academic Help"] ∧
      day.blocks.get? 5 = Option.some "D Block" ∧
      day.blocks.get? 5 ≠ Option.some "MS Lunch | US Advisory" ∧
      day.blocks.get? 6 = Option.some "MS Lunch | US Advisory" := by
  refine ⟨⟨⟨1⟩, 1, false, true, ["Day 1"],
    ["MS Advisory | US Morning Help", "A Block", "B Block", "Break",
     "C Block", "D Block", "MS Lunch | US Advisory",
     "US Lunch | MS Advisory", "E Block", "F Block",
     "MS Electives | US Academic Help"]⟩,
    by decide, by decide, by decide, by decide, by decide⟩

/-- C2 (amended): for every open day with day_number in [1, 7], the
assembled period sequence has the morning-help period at position 0, the
break at position 3 (inserted after the first TWO academic blocks, which sit
at positions 1 and 2), the two lunch/common-time periods at positions 6 and
7, and, on non-Wednesday weekdays only, the electives/academic-help period
at the final position. -/
theorem C2_period_layout (date : PyDate) (dn : Int) (evs : List String)
    (day : RotationDay) (h1 : 1 ≤ dn) (h7 : dn ≤ 7)
    (hinit : RotationDay.init date dn true evs = Option.some day) :
    day.blocks.get? 0 = Option.some "MS Advisory | US Morning Help" ∧
    day.blocks.get? 3 = Option.some "Break" ∧
    day.blocks.get? 6 =
      Option.some ("MS Lunch | US " ++ US_ACTIVITIES.getD date.weekday "") ∧
    day.blocks.get? 7 =
      Option.some ("US Lunch | MS " ++ MS_ACTIVITIES.getD date.weekday "") ∧
    (∃ b1, day.blocks.get? 1 = Option.some b1 ∧ b1 ∈ BLOCKS) ∧
    (∃ b2, day.blocks.get? 2 = Option.some b2 ∧ b2 ∈ BLOCKS) ∧
    (day.is_wednesday = false →
      day.blocks.getLast? = Option.some "MS Electives | US Academic Help") := by
  obtain ⟨hw, hbs⟩ := RotationDay.init_blocks_eq date dn true evs day hinit
  obtain ⟨-, hwed, -, -, -⟩ :=
    RotationDay.init_eq_some date dn true evs day hinit
  obtain ⟨p0, p3, p6, p7, p1, p2, pl⟩ :=
    assemble_blocks_layout date.weekday dn hw h1 h7
  rw [hbs]
  refine ⟨p0, p3, p6, p7, p1, p2, fun hnw => pl ?_⟩
  rw [hwed] at hnw
  simpa using hnw

theorem C2_period_layout_witness :
    ∃ day, RotationDay.init ⟨2⟩ 4 true [] = Option.some day ∧
      (day.blocks.get? 0 = Option.some "MS Advisory | US Morning Help" ∧
       day.blocks.get? 3 = Option.some "Break" ∧
       day.blocks.get? 6 = Option.some
         ("MS Lunch | US " ++ US_ACTIVITIES.getD (PyDate.mk 2).weekday "") ∧
       day.blocks.get? 7 = Option.some
         ("US Lunch | MS " ++ MS_ACTIVITIES.getD (PyDate.mk 2).weekday "") ∧
       (∃ b1, day.blocks.get? 1 = Option.some b1 ∧ b1 ∈ BLOCKS) ∧
       (∃ b2, day.blocks.get? 2 = Option.some b2 ∧ b2 ∈ BLOCKS) ∧
       (day.is_wednesday = false →
         day.blocks.getLast? =
           Option.some "MS Electives | US Academic Help")) :=
  ⟨⟨⟨2⟩, 4, false, true, ["Day 4"],
    ["MS Advisory | US Morning Help", "E Block", "F Block", "Break",
     "G Block", "A Block", "MS Lunch | US MFW", "US Lunch | MS Tutorial",
     "B Block", "C Block", "MS Electives | US Academic Help"]⟩,
   by decide,
   C2_period_layout ⟨2⟩ 4 []
     ⟨⟨2⟩, 4, false, true, ["Day 4"],
      ["MS Advisory | US Morning Help", "E Block", "F Block", "Break",
       "G Block", "A Block", "MS Lunch | US MFW", "US Lunch | MS Tutorial",
       "B Block", "C Block", "MS Electives | US Academic Help"]⟩
     (by decide) (by decide) (by decide)⟩

/-- C5 (counterexample): on the Tuesday with ordinal 2 (MS activity
"Tutorial", US activity "MFW"), the middle-school lunch period — the entry
"MS Lunch | ..." at position 6 — is named "MS Lunch | US MFW": it carries
the weekday's UPPER-school activity and does not mention the middle-school
activity "Tutorial" at all, so "named using that weekday's middle-school
activity" is wrong. -/
theorem C5_ms_lunch_named_with_us_activity :
    ∃ day, RotationDay.init ⟨2⟩ 1 true [] = Option.some day ∧
      day.blocks.get? 6 = Option.some "MS Lunch | US MFW" ∧
      MS_ACTIVITIES.get? (PyDate.mk 2).weekday = Option.some "Tutorial" ∧
      US_ACTIVITIES.get? (PyDate.mk 2).weekday = Option.some "MFW" ∧
      substring_occurs "Tutorial" "MS Lunch | US MFW" = false ∧
      substring_occurs "MFW" "MS Lunch | US MFW" = true := by
  refine ⟨⟨⟨2⟩, 1, false, true, ["Day 1"],
    ["MS Advisory | US Morning Help", "A Block", "B Block", "Break",
     "C Block", "D Block", "MS Lunch | US MFW", "US Lunch | MS Tutorial",
     "E Block", "F Block", "MS Electives | US Academic Help"]⟩,
    by decide, by decide, by decide, by decide, by decide, by decide⟩

/-- C5 (amended): the lunch names are CROSSED: the middle-school lunch
period (position 6) is named using that weekday's upper-school activity
("MS Lunch | US {us_activity}") and the upper-school lunch period
(position 7) is named using that weekday's middle-school activity
("US Lunch | MS {ms_activity}"); the upper-school lunch is ordered after
the middle-school lunch. -/
theorem C5_lunch_names_crossed (date : PyDate) (dn : Int) (o : Bool)
    (evs : List String) (day : RotationDay) (h1 : 1 ≤ dn) (h7 : dn ≤ 7)
    (hinit : RotationDay.init date dn o evs = Option.some day) :
    day.blocks.get? 6 =
      Option.some ("MS Lunch | US " ++ US_ACTIVITIES.getD date.weekday "") ∧
    day.blocks.get? 7 =
      Option.some ("US Lunch | MS " ++ MS_ACTIVITIES.getD date.weekday "") := by
  obtain ⟨hw, hbs⟩ := RotationDay.init_blocks_eq date dn o evs day hinit
  obtain ⟨-, -, p6, p7, -, -, -⟩ :=
    assemble_blocks_layout date.weekday dn hw h1 h7
  rw [hbs]
  exact ⟨p6, p7⟩

theorem C5_lunch_names_crossed_witness :
    ∃ day, RotationDay.init ⟨4⟩ 2 true [] = Option.some day ∧
      (day.blocks.get? 6 = Option.some
        ("MS Lunch | US " ++ US_ACTIVITIES.getD (PyDate.mk 4).weekday "") ∧
       day.blocks.get? 7 = Option.some
        ("US Lunch | MS " ++ MS_ACTIVITIES.getD (PyDate.mk 4).weekday "")) :=
  ⟨⟨⟨4⟩, 2, false, true, ["Day 2"],
    ["MS Advisory | US Morning Help", "G Block", "A Block", "Break",
     "B Block", "C Block", "MS Lunch | US Activity Period",
     "US Lunch | MS Tutorial", "D Block", "E Block",
     "MS Electives | US Academic Help"]⟩,
   by decide,
   C5_lunch_names_crossed ⟨4⟩ 2 true []
     ⟨⟨4⟩, 2, false, true, ["Day 2"],
      ["MS Advisory | US Morning Help", "G Block", "A Block", "Break",
       "B Block", "C Block", "MS Lunch | US Activity Period",
       "US Lunch | MS Tutorial", "D Block", "E Block",
       "MS Electives | US Academic Help"]⟩
     (by decide) (by decide) (by decide)⟩

/-- C9 (confirmed): for every day constructed with is_open = false (on any
date the constructor accepts, i.e. a weekday), create_blocks returns only
all-day events — one per non-empty title, in order, possibly zero —
regardless of the rotation number supplied. -/
theorem C9_closed_day_yields_only_all_day_events (date : PyDate) (dn : Int)
    (evs : List String) (day : RotationDay)
    (hinit : RotationDay.init date dn false evs = Option.some day) :
    day.create_blocks =
      Option.some ((evs.filter fun e => !(e == "")).map fun e =>
        { name := e, start := ⟨date, Option.none⟩,
          stop := ⟨date, Option.none⟩, all_day := true }) := by
  obtain ⟨-, -, hopen, hdate, hevs⟩ :=
    RotationDay.init_eq_some date dn false evs day hinit
  unfold RotationDay.create_blocks
  rw [hopen, hdate, hevs]
  simp

theorem C9_closed_day_yields_only_all_day_events_witness :
    ∃ day, RotationDay.init ⟨1⟩ 3 false ["PSAT", ""] = Option.some day ∧
      day.create_blocks =
        Option.some (((["PSAT", ""]).filter fun e => !(e == "")).map fun e =>
          { name := e, start := ⟨⟨1⟩, Option.none⟩,
            stop := ⟨⟨1⟩, Option.none⟩, all_day := true }) :=
  ⟨⟨⟨1⟩, 3, false, false, ["PSAT", ""],
    ["MS Advisory | US Morning Help", "F Block", "G Block", "Break",
     "A Block", "B Block", "MS Lunch | US Advisory",
     "US Lunch | MS Advisory", "C Block", "D Block",
     "MS Electives | US Academic Help"]⟩,
   by decide,
   C9_closed_day_yields_only_all_day_events ⟨1⟩ 3 ["PSAT", ""]
     ⟨⟨1⟩, 3, false, false, ["PSAT", ""],
      ["MS Advisory | US Morning Help", "F Block", "G Block", "Break",
       "A Block", "B Block", "MS Lunch | US Advisory",
       "US Lunch | MS Advisory", "C Block", "D Block",
       "MS Electives | US Academic Help"]⟩
     (by decide)⟩

/-- C10 (confirmed): constructing a RotationDay succeeds exactly when the
date's weekday index is at most 4 (Monday-Friday); on Saturday or Sunday
(weekday 5 or 6) the lunch-period naming indexes past the end of the
5-entry activity tables and the constructor fails with an
index-out-of-range error. -/
theorem C10_init_total_iff_weekday (date : PyDate) (dn : Int) (o : Bool)
    (evs : List String) :
    (RotationDay.init date dn o evs).isSome ↔ date.weekday ≤ 4 := by
  unfold RotationDay.init
  rw [Option.isSome_map']
  exact assemble_blocks_isSome date.weekday dn

/-- C8 (code bug): a row whose rotation-day-number column is PRESENT but
not parseable as an integer does NOT get skipped silently: `int(row[3])`
raises `ValueError`, the `except IndexError` clause does not catch it, and
the whole run aborts, so later rows are lost too.  Only a MISSING column 3
(`IndexError`) is skipped silently.  (calendar.py uses a bare `except:` at
the same spot and does skip such rows.) -/
theorem C8_nonint_rotation_field_aborts_run :
    parse_rotation_number ["03/06/2024", "TRUE", "FALSE", "three"] =
      Except.error "ValueError: invalid literal for int()" ∧
    collect_rotation_numbers
        [["03/04/2024", "TRUE", "FALSE", "1"],
         ["03/05/2024", "TRUE", "FALSE", "oops"],
         ["03/06/2024", "TRUE", "FALSE", "3"]] =
      Except.error "ValueError: invalid literal for int()" ∧
    parse_rotation_number ["03/06/2024", "TRUE", "FALSE"] =
      Except.ok Option.none ∧
    collect_rotation_numbers
        [["03/04/2024", "TRUE", "FALSE", "1"],
         ["03/05/2024", "TRUE", "FALSE"],
         ["03/06/2024", "TRUE", "FALSE", "3"]] =
      Except.ok [1, 3] := by
  exact ⟨rfl, rfl, rfl, rfl⟩
